import Mathlib

/-!
Verification of the jvmtool attach core: a shallow embedding of the
process-discovery, attach-handshake and agent-library-validation code,
with theorems settling the behavioural claims about it.

The repository ships two revisions of several files (an earlier line-framed
protocol revision and a later null-framed one); both are embedded here and
named with the suffixes Lines/Accum (earlier revision) and Null/Single
(later revision) where they differ.

Strings are modelled as Lean strings over their character lists; the Go
code only ever manipulates ASCII payloads, for which Go byte indexing and
Lean character indexing agree.
-/

set_option maxRecDepth 10000

/-! ## Response framing: tokenizers (internal/jvm.go) -/

/-- The outcome of one unix.Read call on the attach socket: the bytes read
and the accompanying error value (no error, io.EOF, or any other error). -/
inductive ReadErr where
  | noErr
  | eofErr
  | otherErr
deriving DecidableEq, Repr

/-- One read step: data returned together with the error value. -/
structure ReadStep where
  data : List Char
  err : ReadErr
deriving DecidableEq, Repr

/-- Splitter underlying goSplit: every separator produces a boundary and
every segment is kept, exactly as Go strings.Split does. -/
def splitSepAux (sep : Char) : List Char → List Char → List String
  | [], acc => [String.mk acc.reverse]
  | c :: cs, acc =>
    if c = sep then String.mk acc.reverse :: splitSepAux sep cs []
    else splitSepAux sep cs (c :: acc)

/-- Go strings.Split with a one-character separator. -/
def goSplit (sep : Char) (s : String) : List String := splitSepAux sep s.data []

/-- Null-byte tokenizer of the later readAttachResponse (internal/jvm.go
lines 311-329): segments between null bytes are all kept, and a trailing
segment after the last null is kept only when non-empty. -/
def tokenizeNullAux : List Char → List Char → List String
  | [], acc => if acc.isEmpty then [] else [String.mk acc.reverse]
  | c :: cs, acc =>
    if c = Char.ofNat 0 then String.mk acc.reverse :: tokenizeNullAux cs []
    else tokenizeNullAux cs (c :: acc)

/-- Tokenize a raw response buffer at null bytes. -/
def tokenizeNull (data : List Char) : List String := tokenizeNullAux data []

/-- Earlier readAttachResponse (internal/jvm.go lines 148-169): loop reading
chunks, appending every chunk read, stopping at io.EOF or at an empty read,
and failing on any other read error (the accumulated data is discarded).
The stream is the list of successive unix.Read results; an exhausted stream
behaves as an empty read. The value returned is the tail contribution of
the remaining stream, so the head chunk of each step is prepended. -/
def readAttachResponseAccum : List ReadStep → Except String (List Char)
  | [] => .ok []
  | s :: rest =>
    match s.err with
    | .eofErr => .ok s.data
    | .otherErr => .error "failed to read attach response"
    | .noErr =>
      if s.data = [] then .ok []
      else
        match readAttachResponseAccum rest with
        | .ok tail => .ok (s.data ++ tail)
        | .error e => .error e

/-- Later readAttachResponse (internal/jvm.go lines 311-329): a single
unix.Read; any error fails, otherwise the bytes of that one read are
tokenized at null bytes. An exhausted stream reads zero bytes. -/
def readAttachResponseSingle : List ReadStep → Except String (List String)
  | [] => .ok []
  | s :: _ =>
    match s.err with
    | .noErr => .ok (tokenizeNull s.data)
    | _ => .error "failed to read attach response"

/-- The reading discipline the specification states: accumulate everything
received, over as many reads as necessary, until the peer closes the
connection (end-of-stream) or a read error occurs. -/
def readUntilCloseSpec : List ReadStep → Option (List Char)
  | [] => some []
  | s :: rest =>
    match s.err with
    | .otherErr => none
    | .eofErr => some s.data
    | .noErr =>
      if s.data = [] then some []
      else (readUntilCloseSpec rest).map (s.data ++ ·)

/-! ## Response parsing (internal/jvm.go, both revisions of loadAgent) -/

/-- Prefix test on character lists (Go strings.HasPrefix, byte for byte on
ASCII payloads): first argument the pattern, second the string. -/
def charsStartWith : List Char → List Char → Bool
  | [], _ => true
  | _ :: _, [] => false
  | p :: ps, c :: cs => p = c && charsStartWith ps cs

/-- Substring test on character lists (Go strings.Contains). -/
def charsContain (pat : List Char) : List Char → Bool
  | [] => charsStartWith pat []
  | c :: cs => charsStartWith pat (c :: cs) || charsContain pat cs

/-- Go byte-slicing s[n:] on an ASCII string. -/
def goDrop (n : Nat) (s : String) : String := String.mk (s.data.drop n)

/-- Result of parsing an attach response: success, an error value carrying
the message the Go code builds, or a Go runtime panic from an out-of-bounds
index access. -/
inductive LoadParseResult where
  | ok
  | err (msg : String)
  | panicOOB
deriving DecidableEq, Repr

/-- The result-code switch of the earlier loadAgent (internal/jvm.go lines
133-145): code -1 surfaces the raw second field, 0 is success, 100-102 map
to fixed messages, anything else is an unknown-message error. -/
def loadAgentSwitchLines (errCode r1 : String) : LoadParseResult :=
  if errCode = "-1" then .err r1
  else if errCode = "0" then .ok
  else if errCode = "100" then
    .err "agent load failed, code 100: Agent JAR not found or no Agent-Class attribute"
  else if errCode = "101" then
    .err "agent load failed, code 101: Unable to add JAR file to system class path"
  else if errCode = "102" then
    .err "agent load failed, code 102: No agentmain method or agentmain failed"
  else .err ("agent load failed, unknown message: " ++ r1)

/-- Earlier loadAgent response parsing (internal/jvm.go lines 112-145):
split the response at newlines, check field 0 against "0", then read field
1 unconditionally — an index out of range when the split yields a single
field, or when field 1 is empty and its first byte is inspected. -/
def loadAgentParseLines (resp : String) : LoadParseResult :=
  if resp.length = 0 then .err "target VM did not respond"
  else
    let ret := goSplit (Char.ofNat 10) resp
    let returnCode := ret.headD ""
    if returnCode ≠ "0" then .err ("agent load failed, return code: " ++ returnCode)
    else
      match ret[1]? with
      | none => .panicOOB
      | some r1 =>
        if charsStartWith "return code: ".data r1.data then
          loadAgentSwitchLines (goDrop 13 r1) r1
        else
          match r1.data with
          | [] => .panicOOB
          | b :: _ =>
            if b = '-' ∨ (48 ≤ b.toNat ∧ b.toNat ≤ 57) then loadAgentSwitchLines r1 r1
            else loadAgentSwitchLines "-1" r1

/-- Go strings.Contains for the later loadAgent. -/
def goContains (s pat : String) : Bool := charsContain pat.data s.data

/-- Later loadAgent response parsing (internal/jvm.go lines 279-309): field
0 must be "0"; the command result code is field 1 (or field 0 again when
there is no field 1), with a "return code: " marker stripped by a fixed
13-byte offset when present anywhere in the field; codes 100-102 map to
fixed errors and every other code — including any unrecognized token —
falls through to success, mirroring the final return nil. -/
def loadAgentParseNull (ret : List String) : LoadParseResult :=
  match ret with
  | [] => .err "empty response from target process"
  | r0 :: rest =>
    if r0 ≠ "0" then .err ("attach failed, error code: " ++ r0)
    else
      let code := match rest with
        | [] => r0
        | r1 :: _ => if goContains r1 "return code: " then goDrop 13 r1 else r1
      if code = "0" then .ok
      else if code = "100" then
        .err "agent load failed, code 100: Agent JAR not found or no Agent-Class attribute"
      else if code = "101" then
        .err "agent load failed, code 101: Unable to add JAR file to system class path"
      else if code = "102" then
        .err "agent load failed, code 102: No agentmain method or agentmain failed"
      else .ok

/-! ## The attach handshake: checkSocket (internal/jvm.go lines 23-64 and
190-231; the two revisions differ only in the timeout constant, 9000 ms
versus 10000 ms, which is a parameter here) -/

/-- Observable actions of an attach attempt. The library-validation action
exists in the event alphabet because the specification requires it; the
embedded control flow determines where (and whether) it can occur. -/
inductive AttachEvent where
  | validateLibraryCheck
  | createMarker
  | sendSignal
  | socketConnect
  | sendLoadRequest (request : List Char)
deriving DecidableEq, Repr

/-- Environment of one checkSocket call: whether os.Stat finds the control
socket at the poll made at a given elapsed time (milliseconds), and whether
os.Create, os.FindProcess and Process.Signal succeed. -/
structure CheckSocketEnv where
  socketExists : Nat → Bool
  createOk : Bool
  findOk : Bool
  signalOk : Bool

/-- How a checkSocket call returns. -/
inductive CSOutcome where
  | ok
  | timeoutErr
  | createFailed
  | processNotFound
  | signalFailed
deriving DecidableEq, Repr

/-- Result of a checkSocket call: the outcome, the created flag at exit
(true exactly when the os.Create statement executed, hence when the
deferred os.Remove of the trigger marker file runs), and the observable
events in order. -/
structure CSResult where
  outcome : CSOutcome
  created : Bool
  events : List AttachEvent
deriving DecidableEq, Repr

/-- The checkSocket loop: poll for the control socket; on the first poll
that misses, create the trigger marker file and send SIGQUIT once, then
keep polling at 1000 ms steps until the elapsed time passes the timeout.
Every return path that executed os.Create carries created = true, standing
for the deferred removal of the marker file at function exit. -/
def checkSocketLoop (env : CheckSocketEnv) (timeout : Nat) :
    Nat → Nat → Bool → CSResult
  | 0, _, created => ⟨.timeoutErr, created, []⟩
  | fuel + 1, timeSpend, created =>
    if env.socketExists timeSpend then ⟨.ok, created, []⟩
    else if timeout < timeSpend then ⟨.timeoutErr, created, []⟩
    else if created then checkSocketLoop env timeout fuel (timeSpend + 1000) created
    else if env.createOk then
      if env.findOk then
        if env.signalOk then
          let r := checkSocketLoop env timeout fuel (timeSpend + 1000) true
          ⟨r.outcome, r.created, .createMarker :: .sendSignal :: r.events⟩
        else ⟨.signalFailed, true, [.createMarker, .sendSignal]⟩
      else ⟨.processNotFound, true, [.createMarker]⟩
    else ⟨.createFailed, true, [.createMarker]⟩

/-- One checkSocket call (timeSpend starts at 0, created at false). The
structural fuel is the poll budget the timeout admits: polls happen at
0, 1000, ..., and the loop breaks once the elapsed time passes the timeout,
so timeout / 1000 + 2 polls always cover the run and the fuel-exhausted
branch (which coincides with the timeout break) is never reached. -/
def checkSocket (env : CheckSocketEnv) (timeout : Nat) : CSResult :=
  checkSocketLoop env timeout (timeout / 1000 + 2) 0 false

/-- Presence of the trigger marker file after checkSocket returns, from its
presence before the call: the deferred os.Remove runs whenever the create
statement executed, and no other statement of the call touches the file. -/
def markerAfterCheckSocket (markerBefore : Bool) (r : CSResult) : Bool :=
  if r.created then false else markerBefore

/-! ## Process discovery (part_003 DiscoverJavaProcesses, pkg/os.go
PidExists) -/

/-- Decimal digit value of an ASCII character, as strconv recognizes it. -/
def digitVal (c : Char) : Option Nat :=
  if 48 ≤ c.toNat ∧ c.toNat ≤ 57 then some (c.toNat - 48) else none

/-- Value of a non-empty all-digit character list. -/
def digitsVal (cs : List Char) : Option Nat :=
  match cs with
  | [] => none
  | _ =>
    cs.foldl
      (fun acc c =>
        match acc, digitVal c with
        | some a, some d => some (a * 10 + d)
        | _, _ => none)
      (some 0)

/-- Go strconv.Atoi: an optional sign followed by at least one digit, within
the 64-bit signed range; anything else is an error (modelled as none). -/
def goAtoi (s : String) : Option Int :=
  let signed : Option Int :=
    match s.data with
    | '+' :: rest => (digitsVal rest).map Int.ofNat
    | '-' :: rest => (digitsVal rest).map (fun n => -(n : Int))
    | l => (digitsVal l).map Int.ofNat
  match signed with
  | some v =>
    if -9223372036854775808 ≤ v ∧ v ≤ 9223372036854775807 then some v else none
  | none => none

/-- The Go int32 conversion (two's complement truncation). -/
def toInt32 (n : Int) : Int :=
  let m := n % 4294967296
  if m < 2147483648 then m else m - 4294967296

/-- DiscoverJavaProcesses (part_003 lines 54-73): list the marker directory,
keep every entry name strconv.Atoi accepts as an int32 pid, and nothing
else — the function performs no liveness probe. The entries argument is the
list of entry base names the glob produced. -/
def discoverJavaProcesses (entries : List String) : List Int :=
  entries.filterMap (fun f => (goAtoi f).map toInt32)

/-- Outcome of the null-signal liveness probe syscall on a pid. -/
inductive ProbeResult where
  | delivered
  | alreadyFinished
  | esrch
  | eperm
  | otherErr
deriving DecidableEq, Repr

/-- PidExists (pkg/os.go lines 21-49): non-positive pids are an error;
signal 0 delivered or refused with EPERM means the process exists;
process-already-finished and ESRCH mean it does not; any other errno is an
error. -/
def pidExists (probe : Int → ProbeResult) (pid : Int) : Except String Bool :=
  if pid ≤ 0 then .error "invalid pid"
  else
    match probe pid with
    | .delivered => .ok true
    | .alreadyFinished => .ok false
    | .esrch => .ok false
    | .eperm => .ok true
    | .otherErr => .error "probe failed"

/-- The discovery behaviour claim C4 describes, written from the words of
the specification: keep exactly the entry names that parse as non-negative
integers and whose pid passes the liveness probe, where a permission-denied
probe still counts as existing. -/
def discoverClaimed (probe : Int → ProbeResult) (entries : List String) : List Int :=
  entries.filterMap
    (fun f =>
      match goAtoi f with
      | none => none
      | some n =>
        if 0 ≤ n then
          match pidExists probe n with
          | .ok true => some n
          | _ => none
        else none)

/-! ## Agent library validation (pkg/agent_validator.go,
scripts/generate_build_info.sh) -/

/-- The embedded metadata record once extraction and parsing succeeded
(parseMetadataFromBytes has already enforced the size bound and the magic
constant, and the string fields are read null-terminated). The checksum is
the stored 32-bit little-endian value. -/
structure AgentMetadata where
  version : String
  salt : String
  buildTime : String
  checksum : Nat
deriving DecidableEq, Repr

/-- A Go interface value as it appears in the validation rules: a dynamic
type tag together with the value. The rule table stores metadata.GetVersion
and friends (dynamic type string), metadata.Checksum (dynamic type uint32),
and the compiled-in expected constants: the three string constants keep
dynamic type string, while ExpectedAgentChecksum is an untyped integer
constant whose conversion to interface yields its default type, int. -/
inductive GoVal where
  | str (s : String)
  | intV (n : Int)
  | u32 (n : Nat)
deriving DecidableEq, Repr

/-- Go interface equality: equal exactly when the dynamic types are
identical and the values are equal; values of different dynamic types are
never equal. -/
def goValEq : GoVal → GoVal → Bool
  | .str a, .str b => a = b
  | .intV a, .intV b => a = b
  | .u32 a, .u32 b => a = b
  | _, _ => false

/-- The validation rule that fired, in the order the rules slice lists
them, or success. -/
inductive ValidationOutcome where
  | ok
  | versionMismatch
  | saltMismatch
  | buildTimeMismatch
  | checksumMismatch
deriving DecidableEq, Repr

/-- ValidateLibrary on a successfully extracted record (pkg/agent_validator.go
lines 57-82): walk the rule table in order and fail on the first rule whose
actual and expected interface values differ. The three string rules compare
string against string; the checksum rule compares the uint32 field against
the int-typed expected constant. -/
def validateLibrary (expVersion expSalt expBuild : String) (expChecksum : Int)
    (m : AgentMetadata) : ValidationOutcome :=
  if ¬ goValEq (.str m.version) (.str expVersion) then .versionMismatch
  else if ¬ goValEq (.str m.salt) (.str expSalt) then .saltMismatch
  else if ¬ goValEq (.str m.buildTime) (.str expBuild) then .buildTimeMismatch
  else if ¬ goValEq (.u32 m.checksum) (.intV expChecksum) then .checksumMismatch
  else .ok

/-- Sum of the decimal digits of a byte value as od renders it (unsigned
decimal, no leading zeros, values at most 255 so at most three digits). -/
def byteDigitSum (b : Nat) : Nat := b / 100 + b / 10 % 10 + b % 10

/-- The checksum the build pipeline computes
(scripts/generate_build_info.sh lines 39-40): od prints the unsigned
decimal value of each of the first 1000 bytes of the plain concatenation of
version, salt and build time, tr then deletes every space and newline,
fold splits the remaining run of digits one per line, and awk sums them —
so the result is the sum of the decimal digits of the byte values, reduced
modulo 2^32. No separator is inserted between the three fields. -/
def buildChecksum (version salt buildTime : String) : Nat :=
  ((((version ++ salt ++ buildTime).data.take 1000).map
      (fun c => byteDigitSum c.toNat)).sum) % 4294967296

/-- One round of the reflected CRC-32 feedback: shift right, folding in the
IEEE polynomial 0xEDB88320 when the low bit was set. -/
def crc32Round (c : Nat) : Nat :=
  if c % 2 = 1 then Nat.xor (c / 2) 3988292384 else c / 2

/-- Absorb one byte into a CRC-32 state. -/
def crc32Byte (crc b : Nat) : Nat :=
  (List.range 8).foldl (fun c _ => crc32Round c) (Nat.xor crc b)

/-- The standard (IEEE, reflected) CRC-32 of a byte list, written from the
words of the specification, which prescribes a cyclic-redundancy checksum;
initial value and final complement are the conventional 0xFFFFFFFF. -/
def crc32 (data : List Nat) : Nat :=
  Nat.xor (data.foldl crc32Byte 4294967295) 4294967295

/-- The checksum claim C2 describes, written from the words of the
specification: a cyclic-redundancy checksum over the pipe-joined
concatenation of the three build-identity strings. -/
def specClaimedChecksum (version salt buildTime : String) : Nat :=
  crc32 (((version ++ "|" ++ salt ++ "|" ++ buildTime).data).map Char.toNat)

/-! ## Jattach (internal/jattach.go lines 106-171, pkg/user.go, part_003
ValidateJavaProcess) -/

/-- The parsed jattach command options. -/
structure JattachOption where
  user : String
  pid : String
  agentPath : String
  agentParams : String

/-- What os.Stat reported for a path. -/
inductive StatResult where
  | found
  | notFound
  | accessErr
deriving DecidableEq, Repr

/-- PathExists (pkg/os.go lines 11-17): true unless the stat error is
IsNotExist. -/
def pathExists : StatResult → Bool
  | .notFound => false
  | _ => true

/-- Environment of one Jattach invocation. -/
structure JattachEnv where
  currentUser : Option String
  userLookupOk : String → Bool
  processExists : Int → Bool
  hsperfStat : String → String → StatResult
  cs : CheckSocketEnv
  socketCreateOk : Bool
  connectOk : Bool
  writeOk : Bool
  reads : List ReadStep

/-- ValidateUser (pkg/user.go lines 11-26): empty name resolves to the
current user, otherwise the name must look up. -/
def validateUser (username : String) (env : JattachEnv) : Except String String :=
  if username = "" then
    match env.currentUser with
    | some u => .ok u
    | none => .error "current user check failed"
  else if env.userLookupOk username then .ok username
  else .error "user does not exist"

/-- ValidateJavaProcess (part_003 lines 18-42): the pid string must be
non-empty and parse, the process must exist, and the per-user hsperfdata
marker file for the pid must pass PathExists. -/
def validateJavaProcess (u pid : String) (env : JattachEnv) : Except String Unit :=
  if pid = "" then .error "pid is required"
  else
    match goAtoi pid with
    | none => .error ("invalid pid: " ++ pid)
    | some n =>
      if ¬ env.processExists (toInt32 n) then .error "process not found"
      else if ¬ pathExists (env.hsperfStat u pid) then
        .error "pid does not belong to the specified user"
      else .ok ()

/-- JattachValidate (internal/jattach.go lines 132-150): agent path
required, then user validation, then Java-process validation. -/
def jattachValidate (opt : JattachOption) (env : JattachEnv) : Except String String :=
  if opt.agentPath = "" then .error "agentpath is required"
  else
    match validateUser opt.user env with
    | .error e => .error e
    | .ok u =>
      match validateJavaProcess u opt.pid env with
      | .error e => .error e
      | .ok _ => .ok u

/-- The load request buffer (internal/jvm.go lines 248-266): protocol
version 1, the load command, the instrument module, the opaque false flag,
and the agent path with =params appended when params are present, all
null-terminated. -/
def buildLoadRequest (agentPath params : String) : List Char :=
  ['1', Char.ofNat 0] ++ "load".data ++ [Char.ofNat 0]
    ++ "instrument".data ++ [Char.ofNat 0]
    ++ "false".data ++ [Char.ofNat 0]
    ++ agentPath.data ++ (if params = "" then [] else '=' :: params.data)
    ++ [Char.ofNat 0]

/-- The later loadAgent (internal/jvm.go lines 233-309): create a unix
socket, connect to the control socket, send the request buffer in one
write, read the response with the single-read reader, and parse it with the
null-framed parser. Events record the socket interactions in order. -/
def loadAgentRun (env : JattachEnv) (agentPath params : String) :
    Except String Unit × List AttachEvent :=
  if ¬ env.socketCreateOk then (.error "failed to create unix socket", [])
  else if ¬ env.connectOk then
    (.error "failed to connect to target process", [.socketConnect])
  else
    let evs := [AttachEvent.socketConnect,
      AttachEvent.sendLoadRequest (buildLoadRequest agentPath params)]
    if ¬ env.writeOk then (.error "failed to write attach request", evs)
    else
      match readAttachResponseSingle env.reads with
      | .error e => (.error e, evs)
      | .ok ret =>
        match loadAgentParseNull ret with
        | .ok => (.ok (), evs)
        | .err m => (.error m, evs)
        | .panicOOB => (.error "panic", evs)

/-- The later Jattach (internal/jattach.go lines 153-171): option
validation, then checkSocket with the 10000 ms budget, then loadAgent;
exit code 0 on success and 1 on any failure. The second component is the
ordered list of observable events of the whole invocation. -/
def jattachRun (opt : JattachOption) (env : JattachEnv) : Nat × List AttachEvent :=
  match jattachValidate opt env with
  | .error _ => (1, [])
  | .ok _ =>
    if (checkSocket env.cs 10000).outcome = .ok then
      match loadAgentRun env opt.agentPath opt.agentParams with
      | (.ok _, evs) => (0, (checkSocket env.cs 10000).events ++ evs)
      | (.error _, evs) => (1, (checkSocket env.cs 10000).events ++ evs)
    else (1, (checkSocket env.cs 10000).events)

/-- Whether an event is the sending of a load request. -/
def isLoadRequest : AttachEvent → Bool
  | .sendLoadRequest _ => true
  | _ => false

/-! ## Helper lemmas -/

/-- Once the created flag is set, the remaining loop iterations only poll
and sleep: they emit no events and keep the flag. -/
theorem checkSocketLoop_created_run (env : CheckSocketEnv) (timeout : Nat) :
    ∀ fuel timeSpend,
      (checkSocketLoop env timeout fuel timeSpend true).events = [] ∧
      (checkSocketLoop env timeout fuel timeSpend true).created = true := by
  intro fuel
  induction fuel with
  | zero => intro ts; exact ⟨rfl, rfl⟩
  | succ n ih =>
    intro ts
    by_cases h1 : env.socketExists ts
    · simp [checkSocketLoop, h1]
    · by_cases h2 : timeout < ts
      · simp [checkSocketLoop, h1, h2]
      · simpa [checkSocketLoop, h1, h2] using ih (ts + 1000)

/-- One unfolding of the loop for a call that has not created the marker. -/
theorem checkSocketLoop_step (env : CheckSocketEnv) (timeout fuel timeSpend : Nat) :
    checkSocketLoop env timeout (fuel + 1) timeSpend false =
      if env.socketExists timeSpend then ⟨.ok, false, []⟩
      else if timeout < timeSpend then ⟨.timeoutErr, false, []⟩
      else if env.createOk then
        if env.findOk then
          if env.signalOk then
            let r := checkSocketLoop env timeout fuel (timeSpend + 1000) true
            ⟨r.outcome, r.created, .createMarker :: .sendSignal :: r.events⟩
          else ⟨.signalFailed, true, [.createMarker, .sendSignal]⟩
        else ⟨.processNotFound, true, [.createMarker]⟩
      else ⟨.createFailed, true, [.createMarker]⟩ := rfl

/-- The whole event trace of a checkSocket call is one of three lists:
nothing, a marker creation alone, or a marker creation followed by one
signal. -/
theorem checkSocket_events_cases (env : CheckSocketEnv) (timeout : Nat) :
    (checkSocket env timeout).events = [] ∨
    (checkSocket env timeout).events = [.createMarker] ∨
    (checkSocket env timeout).events = [.createMarker, .sendSignal] := by
  unfold checkSocket
  rw [show timeout / 1000 + 2 = (timeout / 1000 + 1) + 1 from rfl, checkSocketLoop_step]
  by_cases h1 : env.socketExists 0
  · left; simp [h1]
  · have h2 : ¬ timeout < 0 := by omega
    by_cases hc : env.createOk
    · by_cases hf : env.findOk
      · by_cases hs : env.signalOk
        · right; right
          have key := checkSocketLoop_created_run env timeout (timeout / 1000 + 1) 1000
          simp [h1, h2, hc, hf, hs, key.1]
        · right; right; simp [h1, h2, hc, hf, hs]
      · right; left; simp [h1, h2, hc, hf]
    · right; left; simp [h1, h2, hc]

/-- The events a loadAgent call can emit, in order: a connect attempt and
then the one write of the load request, cut short when an earlier step
fails. -/
theorem loadAgentRun_events (env : JattachEnv) (agentPath params : String) :
    (loadAgentRun env agentPath params).2 = [] ∨
    (loadAgentRun env agentPath params).2 = [.socketConnect] ∨
    (loadAgentRun env agentPath params).2
      = [.socketConnect, .sendLoadRequest (buildLoadRequest agentPath params)] := by
  unfold loadAgentRun
  by_cases h1 : env.socketCreateOk
  · by_cases h2 : env.connectOk
    · by_cases h3 : env.writeOk
      · cases hr : readAttachResponseSingle env.reads with
        | error e => right; right; simp [h1, h2, h3, hr]
        | ok ret =>
          cases hp : loadAgentParseNull ret with
          | ok => right; right; simp [h1, h2, h3, hr, hp]
          | err m => right; right; simp [h1, h2, h3, hr, hp]
          | panicOOB => right; right; simp [h1, h2, h3, hr, hp]
      · right; right; simp [h1, h2, h3]
    · right; left; simp [h1, h2]
  · left; simp [h1]

/-- The earlier readAttachResponse agrees step by step with the
specification discipline of accumulating until end-of-stream or error. -/
theorem readAccum_matches_spec (s : List ReadStep) :
    (readAttachResponseAccum s).toOption = readUntilCloseSpec s := by
  induction s with
  | nil => rfl
  | cons step rest ih =>
    cases hstep : step.err with
    | eofErr => simp [readAttachResponseAccum, readUntilCloseSpec, hstep, Except.toOption]
    | otherErr => simp [readAttachResponseAccum, readUntilCloseSpec, hstep, Except.toOption]
    | noErr =>
      by_cases hd : step.data = []
      · simp [readAttachResponseAccum, readUntilCloseSpec, hstep, hd, Except.toOption]
      · cases hr : readAttachResponseAccum rest with
        | ok tail =>
          simp [readAttachResponseAccum, readUntilCloseSpec, hstep, hd, hr,
            Except.toOption] at ih ⊢
          rw [← ih]
          rfl
        | error e =>
          simp [readAttachResponseAccum, readUntilCloseSpec, hstep, hd, hr,
            Except.toOption] at ih ⊢
          rw [← ih]
          rfl

/-- The earlier readAttachResponse concatenates every chunk of an
error-free stream of non-empty reads. -/
theorem readAccum_all_chunks (chunks : List (List Char))
    (h : ∀ c ∈ chunks, c ≠ []) :
    readAttachResponseAccum (chunks.map (fun c => ⟨c, .noErr⟩)) = .ok chunks.flatten := by
  induction chunks with
  | nil => rfl
  | cons c cs ih =>
    have hc : c ≠ [] := h c (by simp)
    have ihs := ih (fun x hx => h x (by simp [hx]))
    simp [readAttachResponseAccum, hc, ihs]

/-- Every event a Jattach invocation emits is a marker creation, a signal,
a connect, or a load-request send. -/
theorem jattachRun_events_shape (opt : JattachOption) (env : JattachEnv) :
    ∀ e ∈ (jattachRun opt env).2,
      e = .createMarker ∨ e = .sendSignal ∨ e = .socketConnect ∨
        isLoadRequest e = true := by
  intro e he
  unfold jattachRun at he
  cases hv : jattachValidate opt env with
  | error msg => rw [hv] at he; simp at he
  | ok u =>
    rw [hv] at he
    have hcs := checkSocket_events_cases env.cs 10000
    have hla := loadAgentRun_events env opt.agentPath opt.agentParams
    by_cases ho : (checkSocket env.cs 10000).outcome = .ok
    · rw [if_pos ho] at he
      rcases hl : loadAgentRun env opt.agentPath opt.agentParams with ⟨res, evs⟩
      have hevs : (loadAgentRun env opt.agentPath opt.agentParams).2 = evs := by rw [hl]
      rw [hl] at he
      have hmem : e ∈ (checkSocket env.cs 10000).events ++ evs := by
        cases res with
        | ok v => simpa using he
        | error m => simpa using he
      rcases List.mem_append.mp hmem with hm | hm
      · rcases hcs with h | h | h <;> rw [h] at hm <;> simp at hm <;> tauto
      · rw [← hevs] at hm
        rcases hla with h | h | h <;> rw [h] at hm <;> simp at hm
        · subst hm; tauto
        · rcases hm with rfl | rfl
          · tauto
          · right; right; right; rfl
    · rw [if_neg ho] at he
      simp at he
      rcases hcs with h | h | h <;> rw [h] at he <;> simp at he <;> tauto

/-- Java-process validation cannot succeed when the hsperfdata marker file
of the requested pid is absent for the resolved user. -/
theorem validateJavaProcess_needs_marker (u pid : String) (env : JattachEnv)
    (h : env.hsperfStat u pid = .notFound) (r : Unit)
    (hv : validateJavaProcess u pid env = .ok r) : False := by
  unfold validateJavaProcess at hv
  split at hv
  · exact Except.noConfusion hv
  · split at hv
    · exact Except.noConfusion hv
    · split at hv
      · exact Except.noConfusion hv
      · split at hv
        · exact Except.noConfusion hv
        · rename_i hpe
          rw [h] at hpe
          exact hpe (by simp [pathExists])

/-! ## Claim theorems -/

/-- Claim C1, as amended: option validation (JattachValidate) runs to
completion and succeeds before any load request is sent, but no Jattach
invocation ever performs a library validation — the event trace of every
invocation is free of library-validation events, so every load request is
sent for a library that never passed AgentValidator.ValidateLibrary. -/
theorem jattach_no_library_validation (opt : JattachOption) (env : JattachEnv) :
    AttachEvent.validateLibraryCheck ∉ (jattachRun opt env).2 ∧
    ((jattachRun opt env).2.any isLoadRequest = true →
      ∃ u, jattachValidate opt env = .ok u) := by
  constructor
  · intro hmem
    rcases jattachRun_events_shape opt env _ hmem with h | h | h | h <;>
      simp [isLoadRequest] at h
  · intro hload
    cases hv : jattachValidate opt env with
    | ok u => exact ⟨u, rfl⟩
    | error m =>
      have : (jattachRun opt env).2 = [] := by unfold jattachRun; rw [hv]
      rw [this] at hload
      simp at hload

/-- Claim C1, counterexample to the claim as stated: a complete successful
attach run whose event trace contains the sending of a load request and no
library-validation event at all, so a load request is sent for a library
that validation never approved. -/
theorem jattach_load_sent_without_validation :
    ((jattachRun ⟨"alice", "1234", "/agent.jar", ""⟩
        ⟨some "alice", fun _ => true, fun _ => true, fun _ _ => .found,
          ⟨fun _ => true, true, true, true⟩, true, true, true,
          [⟨"0".data ++ Char.ofNat 0 :: "0".data, .noErr⟩]⟩).2.any isLoadRequest
      = true) ∧
    AttachEvent.validateLibraryCheck ∉
      (jattachRun ⟨"alice", "1234", "/agent.jar", ""⟩
        ⟨some "alice", fun _ => true, fun _ => true, fun _ _ => .found,
          ⟨fun _ => true, true, true, true⟩, true, true, true,
          [⟨"0".data ++ Char.ofNat 0 :: "0".data, .noErr⟩]⟩).2 := by
  exact ⟨by decide, by decide⟩

/-- Claim C2, as amended: the expected checksum of the build pipeline is
the sum of the decimal digits of the byte values of the plain concatenation
of version, salt and build time modulo 2 to the 32, not a
cyclic-redundancy checksum of a pipe-joined string; and because
ValidateLibrary compares the stored uint32 checksum with the int-typed
expected constant as Go interface values of different dynamic types, the
checksum rule never compares equal: every successfully extracted record
whose version, salt and build time match the expected strings fails with a
checksum mismatch, whatever its stored checksum. -/
theorem validateLibrary_checksum_always_mismatch
    (expVersion expSalt expBuild : String) (m : AgentMetadata)
    (h1 : m.version = expVersion) (h2 : m.salt = expSalt)
    (h3 : m.buildTime = expBuild) :
    validateLibrary expVersion expSalt expBuild
        (Int.ofNat (buildChecksum expVersion expSalt expBuild)) m
      = .checksumMismatch := by
  unfold validateLibrary
  simp [goValEq, h1, h2, h3]

/-- Claim C2, witness for the amended theorem at a concrete record. -/
theorem validateLibrary_checksum_always_mismatch_witness :
    validateLibrary "1.0.0" "abc" "2025"
        (Int.ofNat (buildChecksum "1.0.0" "abc" "2025"))
        ⟨"1.0.0", "abc", "2025", 138⟩ = .checksumMismatch :=
  validateLibrary_checksum_always_mismatch "1.0.0" "abc" "2025" _ rfl rfl rfl

/-- Claim C2, counterexample to the claim as stated: a record whose stored
checksum equals the cyclic-redundancy checksum of the pipe-joined
build-identity strings — the recomputed value the claim prescribes — still
fails validation with a checksum mismatch, and the value the build pipeline
actually computes differs from that cyclic-redundancy checksum. -/
theorem validateLibrary_crc_claim_refuted :
    validateLibrary "1.0.0" "abc" "2025"
        (Int.ofNat (buildChecksum "1.0.0" "abc" "2025"))
        ⟨"1.0.0", "abc", "2025", specClaimedChecksum "1.0.0" "abc" "2025"⟩
      = .checksumMismatch ∧
    buildChecksum "1.0.0" "abc" "2025" ≠ specClaimedChecksum "1.0.0" "abc" "2025" := by
  exact ⟨by decide, by decide⟩

/-- Claim C3: on enqueue success with an unrecognized non-numeric second
field, the later (null-framed) loadAgent parsing returns success — it falls
through its switch to return nil — while the earlier (line-framed) revision
returned the raw token as an error. The claim and the specification require
a malformed-response error, so this evaluates the code at the failing
input. -/
theorem loadAgentParseNull_unknown_token_success :
    loadAgentParseNull ["0", "!!"] = .ok ∧
    loadAgentParseLines "0\n!!" = .err "!!" := by
  exact ⟨by decide, by decide⟩

/-- Claim C4, as amended: discovery returns exactly the pids whose entry
names strconv.Atoi accepts (optionally signed integers, converted to
int32); it applies no liveness probe and keeps no notion of probe outcomes
at all. -/
theorem discoverJavaProcesses_mem (entries : List String) (p : Int) :
    p ∈ discoverJavaProcesses entries ↔
      ∃ f ∈ entries, ∃ n, goAtoi f = some n ∧ toInt32 n = p := by
  simp [discoverJavaProcesses, List.mem_filterMap, Option.map_eq_some']

/-- Claim C4, counterexample to the claim as stated: with every liveness
probe reporting not-found, the claimed discovery keeps nothing, yet the
code keeps both numeric names, including a negative one. -/
theorem discover_no_liveness_probe :
    discoverJavaProcesses ["12345", "-7", "abc"] = [12345, -7] ∧
    discoverClaimed (fun _ => .esrch) ["12345", "-7", "abc"] = [] := by
  exact ⟨by decide, by decide⟩

/-- Claim C5, as amended: the earlier readAttachResponse accumulates chunks
over as many reads as necessary, agreeing with the read-until-close
discipline on every stream and concatenating every chunk of an error-free
stream; the later readAttachResponse performs exactly one read and parses
only the bytes of that first read. -/
theorem readAttachResponse_revisions :
    (∀ s, (readAttachResponseAccum s).toOption = readUntilCloseSpec s) ∧
    (∀ chunks : List (List Char), (∀ c ∈ chunks, c ≠ []) →
      readAttachResponseAccum (chunks.map (fun c => ⟨c, .noErr⟩))
        = .ok chunks.flatten) ∧
    (∀ d rest, readAttachResponseSingle (⟨d, .noErr⟩ :: rest)
        = .ok (tokenizeNull d)) :=
  ⟨readAccum_matches_spec, readAccum_all_chunks, fun _ _ => rfl⟩

/-- Claim C5, counterexample to the claim as stated: a peer that delivers
its response over two reads. The later readAttachResponse returns the
tokens of the first read only, while accumulating until end-of-stream
yields a longer response with a different token list. -/
theorem readAttachResponseSingle_partial_read :
    readAttachResponseSingle
        [⟨"0".data, .noErr⟩, ⟨Char.ofNat 0 :: "ab".data, .noErr⟩] = .ok ["0"] ∧
    (readUntilCloseSpec
        [⟨"0".data, .noErr⟩, ⟨Char.ofNat 0 :: "ab".data, .noErr⟩]).map tokenizeNull
      = some ["0", "ab"] := by
  exact ⟨rfl, by decide⟩

/-- Claim C6: starting from an absent trigger marker file, the marker is
absent again after checkSocket returns, whatever the outcome; moreover on
every run that executed the create statement the deferred removal leaves
the marker absent whatever its state before the call. -/
theorem checkSocket_marker_absent_after (env : CheckSocketEnv) (timeout : Nat) :
    markerAfterCheckSocket false (checkSocket env timeout) = false ∧
    (∀ markerBefore, (checkSocket env timeout).created = true →
      markerAfterCheckSocket markerBefore (checkSocket env timeout) = false) := by
  constructor
  · unfold markerAfterCheckSocket; split <;> rfl
  · intro m0 hc; unfold markerAfterCheckSocket; rw [hc]; rfl

/-- Claim C7: when the control socket path already exists at call time, the
first poll succeeds and checkSocket returns success with no marker created
and no signal sent (an empty event trace and the created flag still
false). -/
theorem checkSocket_socket_already_present (env : CheckSocketEnv) (timeout : Nat)
    (h : env.socketExists 0 = true) :
    checkSocket env timeout = ⟨.ok, false, []⟩ := by
  unfold checkSocket
  simp [checkSocketLoop, h]

/-- Claim C7, witness at a concrete environment with the socket present. -/
theorem checkSocket_socket_already_present_witness :
    checkSocket ⟨fun _ => true, false, false, false⟩ 9000 = ⟨.ok, false, []⟩ :=
  checkSocket_socket_already_present ⟨fun _ => true, false, false, false⟩ 9000 rfl

/-- Claim C8: the earlier loadAgent parsing panics with an index out of
range on a response consisting of the single field 0, and likewise on a
response whose second field is empty, instead of returning success or an
error; the later revision guards both accesses. This evaluates the code at
the failing inputs. -/
theorem loadAgentParseLines_oob :
    loadAgentParseLines "0" = .panicOOB ∧
    loadAgentParseLines "0\n" = .panicOOB ∧
    loadAgentParseNull ["0"] = .ok ∧
    loadAgentParseNull ["0", ""] = .ok := by
  exact ⟨by decide, by decide, by decide, by decide⟩

/-- Claim C9: whenever the per-user hsperfdata marker file for the
requested pid is absent, Jattach fails validation and returns exit code 1
with an empty event trace — no marker creation, no signal, no socket
interaction — regardless of whether a live process with that pid exists. -/
theorem jattach_requires_marker (opt : JattachOption) (env : JattachEnv)
    (h : ∀ u, env.hsperfStat u opt.pid = .notFound) :
    jattachRun opt env = (1, []) := by
  unfold jattachRun
  cases hv : jattachValidate opt env with
  | error e => rfl
  | ok u =>
    exfalso
    unfold jattachValidate at hv
    split at hv
    · exact Except.noConfusion hv
    · split at hv
      · exact Except.noConfusion hv
      · split at hv
        · exact Except.noConfusion hv
        · rename_i hj
          exact validateJavaProcess_needs_marker _ opt.pid env (h _) _ hj

/-- Claim C9, witness: a live process whose marker file is absent is
refused with no events. -/
theorem jattach_requires_marker_witness :
    jattachRun ⟨"alice", "1234", "/agent.jar", ""⟩
      ⟨some "alice", fun _ => true, fun _ => true, fun _ _ => .notFound,
        ⟨fun _ => true, true, true, true⟩, true, true, true, []⟩ = (1, []) :=
  jattach_requires_marker _ _ (fun _ => rfl)

/-- Claim C10: within one checkSocket call the marker file is created at
most once and the quit signal is sent at most once, and any such event
implies the control socket was absent at the first poll. -/
theorem checkSocket_create_signal_once (env : CheckSocketEnv) (timeout : Nat) :
    (checkSocket env timeout).events.count AttachEvent.createMarker ≤ 1 ∧
    (checkSocket env timeout).events.count AttachEvent.sendSignal ≤ 1 ∧
    ((checkSocket env timeout).events ≠ [] → env.socketExists 0 = false) := by
  refine ⟨?_, ?_, ?_⟩
  · rcases checkSocket_events_cases env timeout with h | h | h <;> rw [h] <;> simp
  · rcases checkSocket_events_cases env timeout with h | h | h <;> rw [h] <;> simp
  · intro hne
    cases hs : env.socketExists 0 with
    | false => rfl
    | true =>
      have h0 : checkSocket env timeout = ⟨.ok, false, []⟩ := by
        unfold checkSocket; simp [checkSocketLoop, hs]
      rw [h0] at hne
      exact absurd rfl hne
